import Mathlib

/-!
# stress-ng: a verification development over `stress-ng.h`

The header `stress-ng.h` fixes the constants, bit masks, the shared-memory
record `shared_t`, the enumerations `stress_id` and `stress_op`, the process
record `proc_info_t` and the stressor entry-point type `func`.  This file embeds
those declarations in Lean and proves properties of them.

Conventions of the embedding:

* object-like macros become `Nat` constants with the value of the macro body;
* a family of macros (`OPT_FLAGS_*`, `CLASS_*`, `PR_*`) is additionally
  collected in a list, in the order of the header, paired with its name;
* the preprocessor state that the header tests with `#if` is a record
  `Config`; an enumeration is a list of enumerators each guarded by a
  condition on `Config`, and the enumerator values are assigned by the rule of
  the C language (`enumValues`);
* `shared_t` is a list of member descriptors (element size, element count,
  alignment), laid out by the usual rule for C structures (`layout`).
-/

namespace StressNg

/-! ## Plain constants -/

/-- Macro `#define STRESS_FD_MAX (65536)`. -/
def STRESS_FD_MAX : Nat := 65536

/-- Macro `#define STRESS_PROCS_MAX (1024)`. -/
def STRESS_PROCS_MAX : Nat := 1024

/-- Macro `#define MEM_CACHE_SIZE (65536 * 32)`. -/
def MEM_CACHE_SIZE : Nat := 65536 * 32

/-- Macro `#define ABORT_FAILURES (5)`. -/
def ABORT_FAILURES : Nat := 5

/-! ## Bit masks -/

/-- Option bit masks: `#define OPT_FLAGS_NO_CLEAN 0x00000001` and so on. -/
def OPT_FLAGS_NO_CLEAN : Nat := 0x00000001
def OPT_FLAGS_DRY_RUN : Nat := 0x00000002
def OPT_FLAGS_METRICS : Nat := 0x00000004
def OPT_FLAGS_VM_KEEP : Nat := 0x00000008
def OPT_FLAGS_RANDOM : Nat := 0x00000010
def OPT_FLAGS_SET : Nat := 0x00000020
def OPT_FLAGS_KEEP_NAME : Nat := 0x00000040
def OPT_FLAGS_UTIME_FSYNC : Nat := 0x00000080
def OPT_FLAGS_METRICS_BRIEF : Nat := 0x00000100
def OPT_FLAGS_VERIFY : Nat := 0x00000200
def OPT_FLAGS_MMAP_MADVISE : Nat := 0x00000400
def OPT_FLAGS_MMAP_MINCORE : Nat := 0x00000800
def OPT_FLAGS_TIMES : Nat := 0x00001000

/-- Stressor classes: `#define CLASS_CPU 0x00000001` and so on. -/
def CLASS_CPU : Nat := 0x00000001
def CLASS_MEMORY : Nat := 0x00000002
def CLASS_CPU_CACHE : Nat := 0x00000004
def CLASS_IO : Nat := 0x00000008
def CLASS_NETWORK : Nat := 0x00000010
def CLASS_SCHEDULER : Nat := 0x00000020
def CLASS_VM : Nat := 0x00000040
def CLASS_INTERRUPT : Nat := 0x00000080
def CLASS_OS : Nat := 0x00000100

/-- Debug output bit masks: `#define PR_ERROR 0x00010000` and so on. -/
def PR_ERROR : Nat := 0x00010000
def PR_INFO : Nat := 0x00020000
def PR_DEBUG : Nat := 0x00040000
def PR_FAIL : Nat := 0x00080000

/-- Macro `#define PR_ALL (PR_ERROR | PR_INFO | PR_DEBUG | PR_FAIL)`. -/
def PR_ALL : Nat := PR_ERROR ||| PR_INFO ||| PR_DEBUG ||| PR_FAIL

/-- All `OPT_FLAGS_*` macros of the header, in the order they are defined. -/
def optFlagsMasks : List (String × Nat) :=
  [ ("OPT_FLAGS_NO_CLEAN", OPT_FLAGS_NO_CLEAN),
    ("OPT_FLAGS_DRY_RUN", OPT_FLAGS_DRY_RUN),
    ("OPT_FLAGS_METRICS", OPT_FLAGS_METRICS),
    ("OPT_FLAGS_VM_KEEP", OPT_FLAGS_VM_KEEP),
    ("OPT_FLAGS_RANDOM", OPT_FLAGS_RANDOM),
    ("OPT_FLAGS_SET", OPT_FLAGS_SET),
    ("OPT_FLAGS_KEEP_NAME", OPT_FLAGS_KEEP_NAME),
    ("OPT_FLAGS_UTIME_FSYNC", OPT_FLAGS_UTIME_FSYNC),
    ("OPT_FLAGS_METRICS_BRIEF", OPT_FLAGS_METRICS_BRIEF),
    ("OPT_FLAGS_VERIFY", OPT_FLAGS_VERIFY),
    ("OPT_FLAGS_MMAP_MADVISE", OPT_FLAGS_MMAP_MADVISE),
    ("OPT_FLAGS_MMAP_MINCORE", OPT_FLAGS_MMAP_MINCORE),
    ("OPT_FLAGS_TIMES", OPT_FLAGS_TIMES) ]

/-- All `CLASS_*` macros of the header, in the order they are defined. -/
def classMasks : List (String × Nat) :=
  [ ("CLASS_CPU", CLASS_CPU),
    ("CLASS_MEMORY", CLASS_MEMORY),
    ("CLASS_CPU_CACHE", CLASS_CPU_CACHE),
    ("CLASS_IO", CLASS_IO),
    ("CLASS_NETWORK", CLASS_NETWORK),
    ("CLASS_SCHEDULER", CLASS_SCHEDULER),
    ("CLASS_VM", CLASS_VM),
    ("CLASS_INTERRUPT", CLASS_INTERRUPT),
    ("CLASS_OS", CLASS_OS) ]

/-- The single-bit `PR_*` macros of the header (`PR_ALL` is their union). -/
def prMasks : List (String × Nat) :=
  [ ("PR_ERROR", PR_ERROR),
    ("PR_INFO", PR_INFO),
    ("PR_DEBUG", PR_DEBUG),
    ("PR_FAIL", PR_FAIL) ]

/-- The eight classes that the run configuration of the specification lists:
CPU, memory, I/O, network, scheduler, VM, interrupt and OS. -/
def specClassMasks : List (String × Nat) :=
  [ ("CLASS_CPU", CLASS_CPU),
    ("CLASS_MEMORY", CLASS_MEMORY),
    ("CLASS_IO", CLASS_IO),
    ("CLASS_NETWORK", CLASS_NETWORK),
    ("CLASS_SCHEDULER", CLASS_SCHEDULER),
    ("CLASS_VM", CLASS_VM),
    ("CLASS_INTERRUPT", CLASS_INTERRUPT),
    ("CLASS_OS", CLASS_OS) ]

/-- A value is a single bit that fits in a non-negative `int32_t`: it is
`2 ^ k` for some bit position `k < 31`. -/
def isSingleBit31 (v : Nat) : Bool :=
  (List.range 31).any (fun k => v == 2 ^ k)

/-- The values of a family of masks. -/
def maskValues (fam : List (String × Nat)) : List Nat :=
  fam.map Prod.snd

/-- Bitwise OR of all values of a family. -/
def orAll (vs : List Nat) : Nat :=
  vs.foldl (fun a v => a ||| v) 0


/-! ## The shared region `shared_t` -/

/-- One member of a C structure: an array of `count` elements of `elemSize`
bytes each, placed at a multiple of `align` bytes. -/
structure Member where
  name : String
  elemSize : Nat
  count : Nat
  align : Nat
deriving DecidableEq, Repr

/-- The macro `ALIGN64`: `__attribute__ ((aligned(64)))` when `__GNUC__` is
defined, which raises the alignment of the member to 64, and empty otherwise,
which leaves the natural alignment of the element type. -/
def ALIGN64 (gnuc : Bool) (natural : Nat) : Nat :=
  if gnuc then max natural 64 else natural

/-- Member `uint8_t mem_cache[MEM_CACHE_SIZE] ALIGN64`. -/
def shared_t.mem_cache (gnuc : Bool) : Member :=
  ⟨"mem_cache", 1, MEM_CACHE_SIZE, ALIGN64 gnuc 1⟩

/-- Member `uint32_t futex[STRESS_PROCS_MAX] ALIGN64`. -/
def shared_t.futex (gnuc : Bool) : Member :=
  ⟨"futex", 4, STRESS_PROCS_MAX, ALIGN64 gnuc 4⟩

/-- Member `uint64_t futex_timeout[STRESS_PROCS_MAX] ALIGN64`. -/
def shared_t.futex_timeout (gnuc : Bool) : Member :=
  ⟨"futex_timeout", 8, STRESS_PROCS_MAX, ALIGN64 gnuc 8⟩

/-- Member `uint64_t counters[0] ALIGN64`, the zero-length tail. -/
def shared_t.counters (gnuc : Bool) : Member :=
  ⟨"counters", 8, 0, ALIGN64 gnuc 8⟩

/-- The members of `shared_t` in declaration order. -/
def shared_t (gnuc : Bool) : List Member :=
  [shared_t.mem_cache gnuc, shared_t.futex gnuc, shared_t.futex_timeout gnuc,
   shared_t.counters gnuc]

/-- Width in bits of one element of a member (bytes are 8 bits wide, as the
exact-width types `uint8_t`, `uint32_t`, `uint64_t` require). -/
def Member.bits (m : Member) : Nat := 8 * m.elemSize

/-- Size in bytes of a member. -/
def Member.size (m : Member) : Nat := m.elemSize * m.count

/-- An index `i` (a C `int`, possibly negative) addresses an element of the
member array. -/
def Member.validIndex (m : Member) (i : Int) : Bool :=
  decide (0 ≤ i) && decide (i < (m.count : Int))

/-- Round `off` up to the next multiple of `a`. -/
def alignUp (off a : Nat) : Nat := (off + a - 1) / a * a

/-- C structure layout: each member is placed at the first multiple of its
alignment that is not below where the previous member ends. -/
def layout : Nat → List Member → List (String × Nat)
  | _, [] => []
  | off, m :: ms =>
    (m.name, alignUp off m.align) :: layout (alignUp off m.align + m.size) ms

/-- End of the last member when the members are laid out from `off`. -/
def layoutEnd : Nat → List Member → Nat
  | off, [] => off
  | off, m :: ms => layoutEnd (alignUp off m.align + m.size) ms

/-- Alignment of a structure: the largest alignment of its members. -/
def structAlign (ms : List Member) : Nat :=
  ms.foldl (fun a m => max a m.align) 1

/-- The value of `sizeof` for a structure: the end of the last member rounded up to the
alignment of the structure. -/
def sizeofStruct (ms : List Member) : Nat :=
  alignUp (layoutEnd 0 ms) (structAlign ms)

/-- The value of `offsetof(shared_t, member)`. -/
def offsetof (ms : List Member) (member : String) : Option Nat :=
  (layout 0 ms).lookup member

/-- Byte offset of `shared->counters[k]` from the start of the region. -/
def counterOffset (gnuc : Bool) (k : Nat) : Option Nat :=
  (offsetof (shared_t gnuc) "counters").map (fun o => o + (shared_t.counters gnuc).elemSize * k)


/-! ## Conditional compilation -/

/-- The preprocessor state the header depends on.  A macro that the header
tests with `defined(...)` or `#ifdef` is a `Bool` (defined or not); a macro it
uses in an `#if` expression is an `Int`, with the value 0 when it is not
defined, as the preprocessor evaluates it. -/
structure Config where
  __linux__ : Bool
  __gnu_hurd__ : Bool
  __x86_64__ : Bool
  __x86_64 : Bool
  __i386__ : Bool
  __i386 : Bool
  _POSIX_C_SOURCE : Int
  _XOPEN_SOURCE : Int
  _XOPEN_SOURCE_EXTENDED : Int
  _BSD_SOURCE : Int
  _POSIX_PRIORITY_SCHEDULING : Bool
  MAP_POPULATE : Bool
  MAP_LOCKED : Bool
deriving DecidableEq, Repr

namespace Cond

/-- No `#if` around the enumerator. -/
def always (_ : Config) : Bool := true

/-- Guard `#if defined(__linux__)`. -/
def linux (c : Config) : Bool := c.__linux__

/-- Guard `#if _POSIX_C_SOURCE >= 199309L`. -/
def posix_199309 (c : Config) : Bool := decide (c._POSIX_C_SOURCE ≥ 199309)

/-- Guard `#if _XOPEN_SOURCE >= 600 || _POSIX_C_SOURCE >= 200112L`. -/
def xopen_600_or_posix_200112 (c : Config) : Bool :=
  decide (c._XOPEN_SOURCE ≥ 600) || decide (c._POSIX_C_SOURCE ≥ 200112)

/-- Guard `#if !defined(__gnu_hurd__)`. -/
def not_gnu_hurd (c : Config) : Bool := !c.__gnu_hurd__

/-- Guard `#if defined(STRESS_X86)`, where the header defines `STRESS_X86` under
`defined(__x86_64__) || defined(__x86_64) || defined(__i386__) || defined(__i386)`. -/
def STRESS_X86 (c : Config) : Bool :=
  c.__x86_64__ || c.__x86_64 || c.__i386__ || c.__i386

/-- Guard `#if _POSIX_C_SOURCE >= 199309L && !defined(__gnu_hurd__)`. -/
def posix_199309_not_gnu_hurd (c : Config) : Bool :=
  decide (c._POSIX_C_SOURCE ≥ 199309) && !c.__gnu_hurd__

/-- Guard `#if defined(__linux__) || defined(__gnu_hurd__)`. -/
def linux_or_gnu_hurd (c : Config) : Bool := c.__linux__ || c.__gnu_hurd__

/-- Guard `#if _BSD_SOURCE || (_XOPEN_SOURCE >= 500 || _XOPEN_SOURCE &&
_XOPEN_SOURCE_EXTENDED) && !(_POSIX_C_SOURCE >= 200809L || _XOPEN_SOURCE >= 700)`. -/
def vfork_available (c : Config) : Bool :=
  decide (c._BSD_SOURCE ≠ 0) ||
    ((decide (c._XOPEN_SOURCE ≥ 500) ||
        (decide (c._XOPEN_SOURCE ≠ 0) && decide (c._XOPEN_SOURCE_EXTENDED ≠ 0))) &&
      !(decide (c._POSIX_C_SOURCE ≥ 200809) || decide (c._XOPEN_SOURCE ≥ 700)))

/-- Guard `#if defined (_POSIX_PRIORITY_SCHEDULING)`. -/
def posix_priority_scheduling (c : Config) : Bool := c._POSIX_PRIORITY_SCHEDULING

/-- Guard `#ifdef MAP_POPULATE`. -/
def has_MAP_POPULATE (c : Config) : Bool := c.MAP_POPULATE

/-- Guard `#ifdef MAP_LOCKED`. -/
def has_MAP_LOCKED (c : Config) : Bool := c.MAP_LOCKED

end Cond

/-! ## Enumerations -/

/-- One enumerator of a C `enum`: its name, the `#if` guard it stands under,
and its explicit initialiser if it has one. -/
structure Enumerator where
  name : String
  cond : Config → Bool
  init : Option Nat

/-- A character constant used as initialiser, such as `OPT_QUERY = '?'`. -/
def charCode (c : Char) : Option Nat := some c.toNat

/-- The enumerators that survive preprocessing under a configuration. -/
def preprocess (cfg : Config) (es : List Enumerator) : List Enumerator :=
  es.filter (fun e => e.cond cfg)

/-- Values of an enumeration by the rule of C: an enumerator with an
initialiser has that value, one without has the value of the previous
enumerator plus one, and the first has 0.  `next` is the value an enumerator
without initialiser receives. -/
def enumValues : Nat → List Enumerator → List (String × Nat)
  | _, [] => []
  | next, e :: es =>
    (e.name, e.init.getD next) :: enumValues (e.init.getD next + 1) es

/-- The value the enumerator following the list `es` receives by default. -/
def enumNext : Nat → List Enumerator → Nat
  | next, [] => next
  | next, e :: es => enumNext (e.init.getD next + 1) es

/-- Enumerators of `typedef enum { ... } stress_id`, in the order of the header. -/
def stress_id_enumerators : List Enumerator :=
  [
    Enumerator.mk "STRESS_AFFINITY" Cond.linux (some 0),
    Enumerator.mk "STRESS_BSEARCH" Cond.always none,
    Enumerator.mk "STRESS_BIGHEAP" Cond.always none,
    Enumerator.mk "STRESS_CACHE" Cond.always none,
    Enumerator.mk "STRESS_CLOCK" Cond.posix_199309 none,
    Enumerator.mk "STRESS_CPU" Cond.always none,
    Enumerator.mk "STRESS_DENTRY" Cond.always none,
    Enumerator.mk "STRESS_DIR" Cond.always none,
    Enumerator.mk "STRESS_EVENTFD" Cond.linux none,
    Enumerator.mk "STRESS_FALLOCATE" Cond.xopen_600_or_posix_200112 none,
    Enumerator.mk "STRESS_FAULT" Cond.always none,
    Enumerator.mk "STRESS_FLOCK" Cond.always none,
    Enumerator.mk "STRESS_FORK" Cond.always none,
    Enumerator.mk "STRESS_FSTAT" Cond.always none,
    Enumerator.mk "STRESS_FUTEX" Cond.linux none,
    Enumerator.mk "STRESS_GET" Cond.always none,
    Enumerator.mk "STRESS_HDD" Cond.always none,
    Enumerator.mk "STRESS_INOTIFY" Cond.linux none,
    Enumerator.mk "STRESS_IOSYNC" Cond.always none,
    Enumerator.mk "STRESS_KILL" Cond.always none,
    Enumerator.mk "STRESS_LINK" Cond.always none,
    Enumerator.mk "STRESS_LSEARCH" Cond.always none,
    Enumerator.mk "STRESS_MEMCPY" Cond.always none,
    Enumerator.mk "STRESS_MMAP" Cond.always none,
    Enumerator.mk "STRESS_MSG" Cond.not_gnu_hurd none,
    Enumerator.mk "STRESS_NICE" Cond.always none,
    Enumerator.mk "STRESS_NULL" Cond.always none,
    Enumerator.mk "STRESS_OPEN" Cond.always none,
    Enumerator.mk "STRESS_PIPE" Cond.always none,
    Enumerator.mk "STRESS_POLL" Cond.always none,
    Enumerator.mk "STRESS_PROCFS" Cond.linux none,
    Enumerator.mk "STRESS_QSORT" Cond.always none,
    Enumerator.mk "STRESS_RDRAND" Cond.STRESS_X86 none,
    Enumerator.mk "STRESS_RENAME" Cond.always none,
    Enumerator.mk "STRESS_SEEK" Cond.always none,
    Enumerator.mk "STRESS_SENDFILE" Cond.linux none,
    Enumerator.mk "STRESS_SEMAPHORE" Cond.always none,
    Enumerator.mk "STRESS_SIGFPE" Cond.always none,
    Enumerator.mk "STRESS_SIGQUEUE" Cond.posix_199309_not_gnu_hurd none,
    Enumerator.mk "STRESS_SIGSEGV" Cond.always none,
    Enumerator.mk "STRESS_SOCKET" Cond.always none,
    Enumerator.mk "STRESS_SWITCH" Cond.always none,
    Enumerator.mk "STRESS_SYMLINK" Cond.always none,
    Enumerator.mk "STRESS_SYSINFO" Cond.always none,
    Enumerator.mk "STRESS_TIMER" Cond.linux none,
    Enumerator.mk "STRESS_TSEARCH" Cond.always none,
    Enumerator.mk "STRESS_URANDOM" Cond.linux_or_gnu_hurd none,
    Enumerator.mk "STRESS_UTIME" Cond.always none,
    Enumerator.mk "STRESS_VFORK" Cond.vfork_available none,
    Enumerator.mk "STRESS_VM" Cond.always none,
    Enumerator.mk "STRESS_WAIT" Cond.not_gnu_hurd none,
    Enumerator.mk "STRESS_YIELD" Cond.posix_priority_scheduling none,
    Enumerator.mk "STRESS_ZERO" Cond.always none,
    Enumerator.mk "STRESS_MAX" Cond.always none ]

/-- Enumerators of `stress_op` under the comment `Short options`. -/
def stress_op_short : List Enumerator :=
  [
    Enumerator.mk "OPT_QUERY" Cond.always (charCode '?'),
    Enumerator.mk "OPT_ALL" Cond.always (charCode 'a'),
    Enumerator.mk "OPT_BACKOFF" Cond.always (charCode 'b'),
    Enumerator.mk "OPT_BIGHEAP" Cond.always (charCode 'B'),
    Enumerator.mk "OPT_CPU" Cond.always (charCode 'c'),
    Enumerator.mk "OPT_CACHE" Cond.always (charCode 'C'),
    Enumerator.mk "OPT_HDD" Cond.always (charCode 'd'),
    Enumerator.mk "OPT_DENTRY" Cond.always (charCode 'D'),
    Enumerator.mk "OPT_FORK" Cond.always (charCode 'f'),
    Enumerator.mk "OPT_FALLOCATE" Cond.xopen_600_or_posix_200112 (charCode 'F'),
    Enumerator.mk "OPT_IOSYNC" Cond.always (charCode 'i'),
    Enumerator.mk "OPT_HELP" Cond.always (charCode 'h'),
    Enumerator.mk "OPT_KEEP_NAME" Cond.always (charCode 'k'),
    Enumerator.mk "OPT_CPU_LOAD" Cond.always (charCode 'l'),
    Enumerator.mk "OPT_VM" Cond.always (charCode 'm'),
    Enumerator.mk "OPT_METRICS" Cond.always (charCode 'M'),
    Enumerator.mk "OPT_DRY_RUN" Cond.always (charCode 'n'),
    Enumerator.mk "OPT_RENAME" Cond.always (charCode 'R'),
    Enumerator.mk "OPT_OPEN" Cond.always (charCode 'o'),
    Enumerator.mk "OPT_PIPE" Cond.always (charCode 'p'),
    Enumerator.mk "OPT_POLL" Cond.always (charCode 'P'),
    Enumerator.mk "OPT_QUIET" Cond.always (charCode 'q'),
    Enumerator.mk "OPT_RANDOM" Cond.always (charCode 'r'),
    Enumerator.mk "OPT_SWITCH" Cond.always (charCode 's'),
    Enumerator.mk "OPT_SOCKET" Cond.always (charCode 'S'),
    Enumerator.mk "OPT_TIMEOUT" Cond.always (charCode 't'),
    Enumerator.mk "OPT_TIMER" Cond.linux (charCode 'T'),
    Enumerator.mk "OPT_URANDOM" Cond.linux_or_gnu_hurd (charCode 'u'),
    Enumerator.mk "OPT_VERBOSE" Cond.always (charCode 'v'),
    Enumerator.mk "OPT_VERSION" Cond.always (charCode 'V'),
    Enumerator.mk "OPT_YIELD" Cond.always (charCode 'y') ]

/-- Enumerators of `stress_op` under the comment `Long options only`. -/
def stress_op_long : List Enumerator :=
  [
    Enumerator.mk "OPT_AFFINITY" Cond.always (some 0x80),
    Enumerator.mk "OPT_AFFINITY_OPS" Cond.always none,
    Enumerator.mk "OPT_BSEARCH" Cond.always none,
    Enumerator.mk "OPT_BSEARCH_OPS" Cond.always none,
    Enumerator.mk "OPT_BSEARCH_SIZE" Cond.always none,
    Enumerator.mk "OPT_BIGHEAP_OPS" Cond.always none,
    Enumerator.mk "OPT_BIGHEAP_GROWTH" Cond.always none,
    Enumerator.mk "OPT_CLASS" Cond.always none,
    Enumerator.mk "OPT_CACHE_OPS" Cond.always none,
    Enumerator.mk "OPT_CLOCK" Cond.posix_199309 none,
    Enumerator.mk "OPT_CLOCK_OPS" Cond.posix_199309 none,
    Enumerator.mk "OPT_CPU_OPS" Cond.always none,
    Enumerator.mk "OPT_CPU_METHOD" Cond.always none,
    Enumerator.mk "OPT_DENTRY_OPS" Cond.always none,
    Enumerator.mk "OPT_DENTRIES" Cond.always none,
    Enumerator.mk "OPT_DIR" Cond.always none,
    Enumerator.mk "OPT_DIR_OPS" Cond.always none,
    Enumerator.mk "OPT_HDD_BYTES" Cond.always none,
    Enumerator.mk "OPT_HDD_NOCLEAN" Cond.always none,
    Enumerator.mk "OPT_HDD_WRITE_SIZE" Cond.always none,
    Enumerator.mk "OPT_HDD_OPS" Cond.always none,
    Enumerator.mk "OPT_EVENTFD" Cond.linux none,
    Enumerator.mk "OPT_EVENTFD_OPS" Cond.linux none,
    Enumerator.mk "OPT_FALLOCATE_OPS" Cond.xopen_600_or_posix_200112 none,
    Enumerator.mk "OPT_FAULT" Cond.always none,
    Enumerator.mk "OPT_FAULT_OPS" Cond.always none,
    Enumerator.mk "OPT_FLOCK" Cond.always none,
    Enumerator.mk "OPT_FLOCK_OPS" Cond.always none,
    Enumerator.mk "OPT_FORK_OPS" Cond.always none,
    Enumerator.mk "OPT_FORK_MAX" Cond.always none,
    Enumerator.mk "OPT_FSTAT" Cond.always none,
    Enumerator.mk "OPT_FSTAT_OPS" Cond.always none,
    Enumerator.mk "OPT_FSTAT_DIR" Cond.always none,
    Enumerator.mk "OPT_FUTEX" Cond.always none,
    Enumerator.mk "OPT_FUTEX_OPS" Cond.always none,
    Enumerator.mk "OPT_GET" Cond.always none,
    Enumerator.mk "OPT_GET_OPS" Cond.always none,
    Enumerator.mk "OPT_INOTIFY" Cond.linux none,
    Enumerator.mk "OPT_INOTIFY_OPS" Cond.linux none,
    Enumerator.mk "OPT_IONICE_CLASS" Cond.linux none,
    Enumerator.mk "OPT_IONICE_LEVEL" Cond.linux none,
    Enumerator.mk "OPT_IOSYNC_OPS" Cond.always none,
    Enumerator.mk "OPT_KILL" Cond.always none,
    Enumerator.mk "OPT_KILL_OPS" Cond.always none,
    Enumerator.mk "OPT_LINK" Cond.always none,
    Enumerator.mk "OPT_LINK_OPS" Cond.always none,
    Enumerator.mk "OPT_LSEARCH" Cond.always none,
    Enumerator.mk "OPT_LSEARCH_OPS" Cond.always none,
    Enumerator.mk "OPT_LSEARCH_SIZE" Cond.always none,
    Enumerator.mk "OPT_METRICS_BRIEF" Cond.always none,
    Enumerator.mk "OPT_MEMCPY" Cond.always none,
    Enumerator.mk "OPT_MEMCPY_OPS" Cond.always none,
    Enumerator.mk "OPT_MMAP" Cond.always none,
    Enumerator.mk "OPT_MMAP_OPS" Cond.always none,
    Enumerator.mk "OPT_MMAP_BYTES" Cond.always none,
    Enumerator.mk "OPT_MSG" Cond.always none,
    Enumerator.mk "OPT_MSG_OPS" Cond.always none,
    Enumerator.mk "OPT_NICE" Cond.always none,
    Enumerator.mk "OPT_NICE_OPS" Cond.always none,
    Enumerator.mk "OPT_NO_MADVISE" Cond.always none,
    Enumerator.mk "OPT_NULL" Cond.always none,
    Enumerator.mk "OPT_NULL_OPS" Cond.always none,
    Enumerator.mk "OPT_OPEN_OPS" Cond.always none,
    Enumerator.mk "OPT_PAGE_IN" Cond.always none,
    Enumerator.mk "OPT_PIPE_OPS" Cond.always none,
    Enumerator.mk "OPT_POLL_OPS" Cond.always none,
    Enumerator.mk "OPT_PROCFS" Cond.always none,
    Enumerator.mk "OPT_PROCFS_OPS" Cond.always none,
    Enumerator.mk "OPT_QSORT" Cond.always none,
    Enumerator.mk "OPT_QSORT_OPS" Cond.always none,
    Enumerator.mk "OPT_QSORT_INTEGERS" Cond.always none,
    Enumerator.mk "OPT_RDRAND" Cond.always none,
    Enumerator.mk "OPT_RDRAND_OPS" Cond.always none,
    Enumerator.mk "OPT_RENAME_OPS" Cond.always none,
    Enumerator.mk "OPT_SCHED" Cond.always none,
    Enumerator.mk "OPT_SCHED_PRIO" Cond.always none,
    Enumerator.mk "OPT_SEEK" Cond.always none,
    Enumerator.mk "OPT_SEEK_OPS" Cond.always none,
    Enumerator.mk "OPT_SEEK_SIZE" Cond.always none,
    Enumerator.mk "OPT_SENDFILE" Cond.always none,
    Enumerator.mk "OPT_SENDFILE_OPS" Cond.always none,
    Enumerator.mk "OPT_SENDFILE_SIZE" Cond.always none,
    Enumerator.mk "OPT_SEMAPHORE" Cond.always none,
    Enumerator.mk "OPT_SEMAPHORE_OPS" Cond.always none,
    Enumerator.mk "OPT_SEQUENTIAL" Cond.always none,
    Enumerator.mk "OPT_SIGFPE" Cond.always none,
    Enumerator.mk "OPT_SIGFPE_OPS" Cond.always none,
    Enumerator.mk "OPT_SIGSEGV" Cond.always none,
    Enumerator.mk "OPT_SIGSEGV_OPS" Cond.always none,
    Enumerator.mk "OPT_SIGQUEUE" Cond.posix_199309 none,
    Enumerator.mk "OPT_SIGQUEUE_OPS" Cond.posix_199309 none,
    Enumerator.mk "OPT_SOCKET_OPS" Cond.always none,
    Enumerator.mk "OPT_SOCKET_PORT" Cond.always none,
    Enumerator.mk "OPT_SWITCH_OPS" Cond.always none,
    Enumerator.mk "OPT_SYMLINK" Cond.always none,
    Enumerator.mk "OPT_SYMLINK_OPS" Cond.always none,
    Enumerator.mk "OPT_SYSINFO" Cond.always none,
    Enumerator.mk "OPT_SYSINFO_OPS" Cond.always none,
    Enumerator.mk "OPT_TIMER_OPS" Cond.linux none,
    Enumerator.mk "OPT_TIMER_FREQ" Cond.linux none,
    Enumerator.mk "OPT_TSEARCH" Cond.always none,
    Enumerator.mk "OPT_TSEARCH_OPS" Cond.always none,
    Enumerator.mk "OPT_TSEARCH_SIZE" Cond.always none,
    Enumerator.mk "OPT_TIMES" Cond.linux none,
    Enumerator.mk "OPT_URANDOM_OPS" Cond.linux_or_gnu_hurd none,
    Enumerator.mk "OPT_UTIME" Cond.always none,
    Enumerator.mk "OPT_UTIME_OPS" Cond.always none,
    Enumerator.mk "OPT_UTIME_FSYNC" Cond.always none,
    Enumerator.mk "OPT_VERIFY" Cond.always none,
    Enumerator.mk "OPT_VFORK" Cond.vfork_available none,
    Enumerator.mk "OPT_VFORK_OPS" Cond.vfork_available none,
    Enumerator.mk "OPT_VFORK_MAX" Cond.vfork_available none,
    Enumerator.mk "OPT_VM_BYTES" Cond.always none,
    Enumerator.mk "OPT_VM_STRIDE" Cond.always none,
    Enumerator.mk "OPT_VM_HANG" Cond.always none,
    Enumerator.mk "OPT_VM_KEEP" Cond.always none,
    Enumerator.mk "OPT_VM_MMAP_POPULATE" Cond.has_MAP_POPULATE none,
    Enumerator.mk "OPT_VM_MMAP_LOCKED" Cond.has_MAP_LOCKED none,
    Enumerator.mk "OPT_VM_OPS" Cond.always none,
    Enumerator.mk "OPT_WAIT" Cond.not_gnu_hurd none,
    Enumerator.mk "OPT_WAIT_OPS" Cond.not_gnu_hurd none,
    Enumerator.mk "OPT_YIELD_OPS" Cond.posix_priority_scheduling none,
    Enumerator.mk "OPT_ZERO" Cond.always none,
    Enumerator.mk "OPT_ZERO_OPS" Cond.always none ]

/-- Enumerators of `typedef enum { ... } stress_op`, in the order of the header. -/
def stress_op_enumerators : List Enumerator :=
  stress_op_short ++ stress_op_long

/-- The enumeration `stress_id` under a configuration: names with values. -/
def stress_id (cfg : Config) : List (String × Nat) :=
  enumValues 0 (preprocess cfg stress_id_enumerators)

/-- The value of the enumerator `STRESS_MAX`. -/
def STRESS_MAX (cfg : Config) : Option Nat :=
  (stress_id cfg).lookup "STRESS_MAX"

/-- The stressor ids: the enumerators of `stress_id` before the last one. -/
def stressors (cfg : Config) : List (String × Nat) :=
  (stress_id cfg).dropLast

/-- Extent of `extern uint64_t opt_ops[STRESS_MAX]`. -/
def opt_ops_extent (cfg : Config) : Option Nat := STRESS_MAX cfg

/-- Extent of `extern int32_t started_procs[STRESS_MAX]`. -/
def started_procs_extent (cfg : Config) : Option Nat := STRESS_MAX cfg

/-- Extent of `extern proc_info_t *procs[STRESS_MAX]`. -/
def procs_extent (cfg : Config) : Option Nat := STRESS_MAX cfg

/-- The enumeration `stress_op` under a configuration: names with values. -/
def stress_op (cfg : Config) : List (String × Nat) :=
  enumValues 0 (preprocess cfg stress_op_enumerators)

/-- The short options of `stress_op` under a configuration. -/
def short_options (cfg : Config) : List (String × Nat) :=
  (stress_op cfg).take (preprocess cfg stress_op_short).length

/-- The long-only options of `stress_op` under a configuration. -/
def long_options (cfg : Config) : List (String × Nat) :=
  (stress_op cfg).drop (preprocess cfg stress_op_short).length

/-- A usual Linux build on x86-64: `__linux__`, `__x86_64__`, `__x86_64`,
`_POSIX_C_SOURCE = 200809`, `_BSD_SOURCE = 1`, `_POSIX_PRIORITY_SCHEDULING`,
`MAP_POPULATE` and `MAP_LOCKED` are defined. -/
def linuxConfig : Config :=
  Config.mk true false true true false false 200809 0 0 1 true true true

/-- A build with none of the tested macros defined. -/
def bareConfig : Config :=
  Config.mk false false false false false false 0 0 0 0 false false false

/-- The enumerators of `stress_id` between the first and the last one. -/
def stress_id_middle : List Enumerator :=
  stress_id_enumerators.tail.dropLast

/-- The enumerators of `stress_op` after `OPT_AFFINITY = 0x80`. -/
def stress_op_long_rest : List Enumerator :=
  stress_op_long.tail

/-! ## Worker contract and process supervisor

The header declares the stressor functions (`STRESS(name)`, of type `func`) and
the supervisor state (`procs`, `started_procs`); their bodies are in other
files of the program.  They are modelled here from the specification. -/

/-- Status a stressor returns: normal completion, a reported operational
failure, or a detected verification failure. -/
inductive WorkerStatus where
  | success
  | failure
  | corrupt
deriving DecidableEq, Repr

/-- Modelled from the spec: the body of a stressor function of type `func`,
`int name(uint64_t *const counter, const uint32_t instance, const uint64_t
max_ops, const char *name)`, which the header only declares.  The worker loops
performing units of work; after each unit it increments its 64-bit counter and
checks the run/stop flag `opt_do_run` and whether the counter has reached the
ceiling `max_ops` (0 meaning unbounded), and returns once either holds.  A unit
that fails ends the worker with that status.  `work inst name t` is the outcome
of the unit of work number `t`, `opt_do_run t` the flag as read after it; the
result is the status with the final counter, or `none` when `fuel` units did
not suffice. -/
def stressor (work : Nat → String → Nat → WorkerStatus) (opt_do_run : Nat → Bool)
    (inst : Nat) (max_ops : Nat) (name : String) :
    Nat → Nat → Nat → Option (WorkerStatus × Nat)
  | 0, _, _ => none
  | fuel + 1, t, counter =>
    match work inst name t with
    | WorkerStatus.success =>
      if opt_do_run t = false ∨ (max_ops ≠ 0 ∧ max_ops ≤ (counter + 1) % 2 ^ 64) then
        some (WorkerStatus.success, (counter + 1) % 2 ^ 64)
      else
        stressor work opt_do_run inst max_ops name fuel (t + 1) ((counter + 1) % 2 ^ 64)
    | st => some (st, counter)

/-- States of a process record in the supervisor. -/
inductive ProcState where
  | PENDING
  | FORKED
  | RUNNING
  | EXITED_OK
  | EXITED_FAIL
  | KILLED
  | TIMED_OUT
deriving DecidableEq, Repr

/-- The terminal states `EXITED_OK`, `EXITED_FAIL`, `KILLED`, `TIMED_OUT`. -/
def ProcState.isTerminal : ProcState → Bool
  | ProcState.EXITED_OK => true
  | ProcState.EXITED_FAIL => true
  | ProcState.KILLED => true
  | ProcState.TIMED_OUT => true
  | _ => false

/-- The record `proc_info_t` of the header: process id, time the process
started, time it got reaped.  Times are readings of a clock, as natural
numbers; `finish` is `none` until the process is reaped. -/
structure proc_info_t where
  pid : Int
  start : Nat
  finish : Option Nat
deriving DecidableEq, Repr

/-- A process record of the supervisor: the `proc_info_t` entry with the state
of the worker. -/
structure ProcessRecord where
  info : proc_info_t
  state : ProcState
deriving DecidableEq, Repr

/-- How a child ended, as `waitpid` reports it. -/
inductive WaitStatus where
  | exited (code : Nat)
  | signaled (sig : Nat)
deriving DecidableEq, Repr

/-- Modelled from the spec: `launch(stressor, count)` of the supervisor, which
is not in the header.  For `i` in `0..count` fork a child; on the parent side
record a process record with the start time in state `RUNNING`; when a fork
fails the remaining instances are not started.  `fork i` is the result of the
fork for instance `i` (the pid, or `none` on failure) and `time_now i` the
clock at that fork; `launchFrom n i` launches `n` instances from index `i`. -/
def launchFrom (fork : Nat → Option Int) (time_now : Nat → Nat) :
    Nat → Nat → List ProcessRecord
  | 0, _ => []
  | n + 1, i =>
    match fork i with
    | none => []
    | some pid =>
      ProcessRecord.mk (proc_info_t.mk pid (time_now i) none) ProcState.RUNNING ::
        launchFrom fork time_now n (i + 1)

/-- Modelled from the spec: `launch(stressor, count)`, see `launchFrom`. -/
def launch (fork : Nat → Option Int) (time_now : Nat → Nat) (count : Nat) :
    List ProcessRecord :=
  launchFrom fork time_now count 0

/-- Modelled from the spec: the classification of an exit status by
`reap_all()`: exit code zero is `EXITED_OK`, nonzero `EXITED_FAIL`, death by
the stop signal of the harness `KILLED`, death by another signal
`EXITED_FAIL`. -/
def classify (stop_signal : Nat) : WaitStatus → ProcState
  | WaitStatus.exited 0 => ProcState.EXITED_OK
  | WaitStatus.exited _ => ProcState.EXITED_FAIL
  | WaitStatus.signaled s =>
    if s = stop_signal then ProcState.KILLED else ProcState.EXITED_FAIL

/-- Modelled from the spec: `reap_all()` of the supervisor, which is not in the
header: wait for every forked process, record its finish time and classify its
terminal state.  `waitpid pid` is the status the process ended with and
`reaped_at pid` the clock when it was reaped. -/
def reap_all (waitpid : Int → WaitStatus) (reaped_at : Int → Nat) (stop_signal : Nat)
    (records : List ProcessRecord) : List ProcessRecord :=
  records.map (fun r =>
    ProcessRecord.mk
      (proc_info_t.mk r.info.pid r.info.start (some (reaped_at r.info.pid)))
      (classify stop_signal (waitpid r.info.pid)))

/-- One entry of a run request: stressor id, requested instance count,
operation ceiling and class flags. -/
structure StressorRequest where
  id : Nat
  instances : Nat
  max_ops : Nat
  class_flags : Nat
deriving DecidableEq, Repr

/-- A run request: the ordered list of stressors to run with the global
settings `opt_timeout`, `opt_backoff`, `opt_flags` and `opt_sequential`. -/
structure RunRequest where
  stressors : List StressorRequest
  opt_timeout : Nat
  opt_backoff : Int
  opt_flags : Nat
  opt_sequential : Nat
deriving DecidableEq, Repr

/-- Modelled from the spec: the running counter of consecutive `EXITED_FAIL`
outcomes that the supervisor, which is not in the header, keeps across the
whole run: a failed termination adds one, any other outcome ends the streak. -/
def count_outcome (failures : Nat) (st : ProcState) : Nat :=
  if st = ProcState.EXITED_FAIL then failures + 1 else 0

/-- Modelled from the spec: the abort check of the supervisor, which is not in
the header: the consecutive-failure counter has reached the threshold
`ABORT_FAILURES`. -/
def abort_reached (failures : Nat) : Bool :=
  decide (ABORT_FAILURES ≤ failures)

/-- Modelled from the spec: the abort policy of the supervisor, which is not in
the header.  The pending stressors are taken in order; once the counter of
consecutive failures has reached the threshold no further stressor is
launched; otherwise the stressor is launched and the outcomes of its instances
`0 .. instances - 1` are counted as they are reaped.  `outcome id i` is the
terminal state of instance `i` of stressor `id`; the result is the list of
the ids launched and the final counter. -/
def run_pending (outcome : Nat → Nat → ProcState) :
    Nat → List StressorRequest → List Nat × Nat
  | failures, [] => ([], failures)
  | failures, s :: rest =>
    if abort_reached failures = true then ([], failures)
    else
      (s.id ::
        (run_pending outcome
          (((List.range s.instances).map (outcome s.id)).foldl count_outcome failures)
          rest).1,
       (run_pending outcome
          (((List.range s.instances).map (outcome s.id)).foldl count_outcome failures)
          rest).2)

/-- Modelled from the spec: a whole run of the supervisor on a run request,
starting with no failure counted. -/
def supervise (req : RunRequest) (outcome : Nat → Nat → ProcState) : List Nat × Nat :=
  run_pending outcome 0 req.stressors


/-! ## Lemmas on enumerations -/

theorem enumValues_append (l r : List Enumerator) (n : Nat) :
    enumValues n (l ++ r) = enumValues n l ++ enumValues (enumNext n l) r := by
  induction l generalizing n with
  | nil => rfl
  | cons e es ih => simp [enumValues, enumNext, ih]

theorem enumValues_cons (e : Enumerator) (es : List Enumerator) (n : Nat) :
    enumValues n (e :: es) =
      (e.name, e.init.getD n) :: enumValues (e.init.getD n + 1) es := rfl

theorem enumValues_length (l : List Enumerator) (n : Nat) :
    (enumValues n l).length = l.length := by
  induction l generalizing n with
  | nil => rfl
  | cons e es ih => simp [enumValues, ih]

theorem enumValues_fst (l : List Enumerator) (n : Nat) :
    (enumValues n l).map Prod.fst = l.map (fun e => e.name) := by
  induction l generalizing n with
  | nil => rfl
  | cons e es ih => simp [enumValues, ih]

theorem enumNext_implicit (l : List Enumerator) (n : Nat)
    (h : ∀ e ∈ l, e.init = none) : enumNext n l = n + l.length := by
  induction l generalizing n with
  | nil => rfl
  | cons e es ih =>
    have he : e.init = none := h e (List.mem_cons_self _ _)
    have hes : ∀ x ∈ es, x.init = none := fun x hx => h x (List.mem_cons_of_mem _ hx)
    simp [enumNext, he, ih _ hes]
    omega

theorem enumValues_implicit_snd (l : List Enumerator) (n : Nat)
    (h : ∀ e ∈ l, e.init = none) :
    (enumValues n l).map Prod.snd = List.range' n l.length := by
  induction l generalizing n with
  | nil => rfl
  | cons e es ih =>
    have he : e.init = none := h e (List.mem_cons_self _ _)
    have hes : ∀ x ∈ es, x.init = none := fun x hx => h x (List.mem_cons_of_mem _ hx)
    simp [enumValues, he, ih _ hes, List.range'_succ]

theorem enumValues_explicit_snd (l : List Enumerator) (n : Nat)
    (h : ∀ e ∈ l, e.init.isSome = true) :
    (enumValues n l).map Prod.snd = l.map (fun e => e.init.getD 0) := by
  induction l generalizing n with
  | nil => rfl
  | cons e es ih =>
    have he : e.init.isSome = true := h e (List.mem_cons_self _ _)
    have hes : ∀ x ∈ es, x.init.isSome = true :=
      fun x hx => h x (List.mem_cons_of_mem _ hx)
    obtain ⟨v, hv⟩ := Option.isSome_iff_exists.mp he
    simp [enumValues, hv, ih _ hes]

theorem mem_preprocess {cfg : Config} {l : List Enumerator} {e : Enumerator}
    (h : e ∈ preprocess cfg l) : e ∈ l :=
  (List.mem_filter.mp h).1

theorem preprocess_append (cfg : Config) (l r : List Enumerator) :
    preprocess cfg (l ++ r) = preprocess cfg l ++ preprocess cfg r := by
  simp [preprocess]

theorem lookup_append_singleton (k : String) (v : Nat) (l : List (String × Nat))
    (h : ∀ p ∈ l, p.1 ≠ k) : (l ++ [(k, v)]).lookup k = some v := by
  induction l with
  | nil => simp [List.lookup]
  | cons p ps ih =>
    obtain ⟨a, b⟩ := p
    have ha : a ≠ k := h (a, b) (List.mem_cons_self _ _)
    have hps : ∀ q ∈ ps, q.1 ≠ k := fun q hq => h q (List.mem_cons_of_mem _ hq)
    have hk : (k == a) = false := by
      simp only [beq_eq_false_iff_ne]
      exact fun hka => ha hka.symm
    simp [List.lookup, hk, ih hps]

/-- An enumeration whose enumerators have no initialiser and that ends with
an enumerator `last`: the values before `last` number consecutively from `n`
and `last` has the value `n` plus their number. -/
theorem enumValues_implicit_last (fm : List Enumerator) (n : Nat) (last : String)
    (himp : ∀ e ∈ fm, e.init = none) :
    enumValues n (fm ++ [Enumerator.mk last Cond.always none]) =
      enumValues n fm ++ [(last, n + fm.length)] := by
  rw [enumValues_append, enumNext_implicit fm n himp]
  simp [enumValues]

theorem stress_id_enumerators_split :
    stress_id_enumerators =
      Enumerator.mk "STRESS_AFFINITY" Cond.linux (some 0) ::
        (stress_id_middle ++ [Enumerator.mk "STRESS_MAX" Cond.always none]) := rfl

theorem stress_id_middle_implicit :
    ∀ e ∈ stress_id_middle, e.init = none ∧ e.name ≠ "STRESS_MAX" := by
  decide

/-- Shape of `stress_id` for any selection `keep` of its enumerators that
retains `STRESS_MAX`: the ids before `STRESS_MAX` number consecutively from 0
and `STRESS_MAX` follows them with their count as value. -/
theorem stress_id_filter_shape (keep : Enumerator → Bool)
    (hmax : keep (Enumerator.mk "STRESS_MAX" Cond.always none) = true) :
    ∃ ids : List (String × Nat),
      enumValues 0 (stress_id_enumerators.filter keep) =
        ids ++ [("STRESS_MAX", ids.length)] ∧
      ids.map Prod.snd = List.range ids.length ∧
      (∀ p ∈ ids, p.1 ≠ "STRESS_MAX") := by
  have himp : ∀ e ∈ stress_id_middle.filter keep, e.init = none :=
    fun e he => (stress_id_middle_implicit e (List.mem_filter.mp he).1).1
  have hname : ∀ p ∈ enumValues 1 (stress_id_middle.filter keep) ++
      enumValues 0 (stress_id_middle.filter keep), p.1 ≠ "STRESS_MAX" := by
    intro p hp
    have hp1 : p.1 ∈ (stress_id_middle.filter keep).map (fun e => e.name) := by
      rcases List.mem_append.mp hp with h | h
      · rw [← enumValues_fst _ 1]; exact List.mem_map_of_mem _ h
      · rw [← enumValues_fst _ 0]; exact List.mem_map_of_mem _ h
    obtain ⟨e, he, hep⟩ := List.mem_map.mp hp1
    rw [← hep]
    exact (stress_id_middle_implicit e (List.mem_filter.mp he).1).2
  rw [stress_id_enumerators_split]
  cases hl : keep (Enumerator.mk "STRESS_AFFINITY" Cond.linux (some 0))
  · refine ⟨enumValues 0 (stress_id_middle.filter keep), ?_, ?_, ?_⟩
    · have : (Enumerator.mk "STRESS_AFFINITY" Cond.linux (some 0) ::
          (stress_id_middle ++ [Enumerator.mk "STRESS_MAX" Cond.always none])).filter keep =
          stress_id_middle.filter keep ++ [Enumerator.mk "STRESS_MAX" Cond.always none] := by
        simp [List.filter_cons, hl, hmax]
      rw [this, enumValues_implicit_last _ _ _ himp, enumValues_length]
      simp
    · rw [enumValues_implicit_snd _ _ himp, enumValues_length, List.range_eq_range']
    · exact fun p hp => hname p (List.mem_append_right _ hp)
  · refine ⟨("STRESS_AFFINITY", 0) :: enumValues 1 (stress_id_middle.filter keep), ?_, ?_, ?_⟩
    · have : (Enumerator.mk "STRESS_AFFINITY" Cond.linux (some 0) ::
          (stress_id_middle ++ [Enumerator.mk "STRESS_MAX" Cond.always none])).filter keep =
          Enumerator.mk "STRESS_AFFINITY" Cond.linux (some 0) ::
          (stress_id_middle.filter keep ++
            [Enumerator.mk "STRESS_MAX" Cond.always none]) := by
        simp [List.filter_cons, hl, hmax]
      rw [this]
      generalize stress_id_middle.filter keep = fm at himp
      rw [enumValues_cons, enumValues_implicit_last _ _ _ himp]
      simp [enumValues_length, Nat.add_comm]
    · simp only [List.map_cons, List.length_cons]
      rw [enumValues_implicit_snd _ _ himp, enumValues_length, List.range_eq_range',
        List.range'_succ]
    · intro p hp
      rcases List.mem_cons.mp hp with h | h
      · rw [h]; decide
      · exact hname p (List.mem_append_left _ h)

/-- Shape of `stress_id` under any configuration. -/
theorem stress_id_shape (cfg : Config) :
    ∃ ids : List (String × Nat),
      stress_id cfg = ids ++ [("STRESS_MAX", ids.length)] ∧
      ids.map Prod.snd = List.range ids.length ∧
      (∀ p ∈ ids, p.1 ≠ "STRESS_MAX") :=
  stress_id_filter_shape (fun e => e.cond cfg) rfl

theorem stress_op_long_split :
    stress_op_long =
      Enumerator.mk "OPT_AFFINITY" Cond.always (some 0x80) :: stress_op_long_rest := rfl

theorem stress_op_long_rest_implicit : ∀ e ∈ stress_op_long_rest, e.init = none := by
  decide

theorem stress_op_short_explicit :
    ∀ e ∈ stress_op_short, e.init.isSome = true ∧ e.init.getD 0 < 0x80 := by
  decide

theorem stress_op_short_nodup :
    (stress_op_short.map (fun e => e.init.getD 0)).Nodup := by
  decide

/-- Shape of `stress_op` under any configuration: the short options carry
their character codes, and the long options number consecutively from 0x80,
starting with `OPT_AFFINITY`. -/
theorem stress_op_shape (cfg : Config) :
    short_options cfg = enumValues 0 (preprocess cfg stress_op_short) ∧
    long_options cfg =
      ("OPT_AFFINITY", 0x80) :: enumValues 0x81 (preprocess cfg stress_op_long_rest) ∧
    stress_op cfg = short_options cfg ++ long_options cfg := by
  have hpre : preprocess cfg stress_op_enumerators =
      preprocess cfg stress_op_short ++
        Enumerator.mk "OPT_AFFINITY" Cond.always (some 0x80) ::
          preprocess cfg stress_op_long_rest := by
    unfold stress_op_enumerators
    rw [preprocess_append, stress_op_long_split]
    simp [preprocess, List.filter_cons, Cond.always]
  have hval : stress_op cfg = enumValues 0 (preprocess cfg stress_op_short) ++
      ("OPT_AFFINITY", 0x80) :: enumValues 0x81 (preprocess cfg stress_op_long_rest) := by
    unfold stress_op
    rw [hpre, enumValues_append, enumValues_cons]
    rfl
  have hlen : (enumValues 0 (preprocess cfg stress_op_short)).length =
      (preprocess cfg stress_op_short).length := enumValues_length _ _
  refine ⟨?_, ?_, ?_⟩
  · unfold short_options
    rw [hval, ← hlen, List.take_left']
    rfl
  · unfold long_options
    rw [hval, ← hlen, List.drop_left']
    rfl
  · unfold short_options long_options
    exact (List.take_append_drop _ _).symm


/-! ## Lemmas on the worker and the supervisor -/

theorem stressor_returns (work : Nat → String → Nat → WorkerStatus)
    (opt_do_run : Nat → Bool) (inst K : Nat) (name : String) (hK : K < 2 ^ 64) :
    ∀ fuel t counter, counter < K → K - counter ≤ fuel →
      ∃ st c, stressor work opt_do_run inst K name fuel t counter = some (st, c) ∧
        c ≤ K ∧
        ((∀ u, opt_do_run u = true) → (∀ u, work inst name u = WorkerStatus.success) →
          st = WorkerStatus.success ∧ c = K) := by
  intro fuel
  induction fuel with
  | zero => intro t counter hc hf; omega
  | succ fuel ih =>
    intro t counter hc hf
    have hmod : (counter + 1) % 2 ^ 64 = counter + 1 := Nat.mod_eq_of_lt (by omega)
    unfold stressor
    cases hw : work inst name t with
    | success =>
      simp only [hmod]
      by_cases hcond : opt_do_run t = false ∨ (K ≠ 0 ∧ K ≤ counter + 1)
      · rw [if_pos hcond]
        refine ⟨WorkerStatus.success, counter + 1, rfl, by omega, ?_⟩
        intro hrun _
        rcases hcond with h | h
        · rw [hrun t] at h; exact absurd h (by decide)
        · exact ⟨rfl, by omega⟩
      · rw [if_neg hcond]
        have hlt : counter + 1 < K := by
          by_contra hge
          exact hcond (Or.inr ⟨by omega, by omega⟩)
        exact ih (t + 1) (counter + 1) hlt (by omega)
    | failure =>
      refine ⟨WorkerStatus.failure, counter, rfl, by omega, ?_⟩
      intro _ hall
      rw [hall t] at hw
      exact absurd hw (by decide)
    | corrupt =>
      refine ⟨WorkerStatus.corrupt, counter, rfl, by omega, ?_⟩
      intro _ hall
      rw [hall t] at hw
      exact absurd hw (by decide)

theorem launchFrom_length (fork : Nat → Option Int) (time_now : Nat → Nat) :
    ∀ n i, (∀ j, i ≤ j → j < i + n → (fork j).isSome = true) →
      (launchFrom fork time_now n i).length = n := by
  intro n
  induction n with
  | zero => intro i _; rfl
  | succ n ih =>
    intro i h
    have hi : (fork i).isSome = true := h i (Nat.le_refl _) (by omega)
    obtain ⟨pid, hpid⟩ := Option.isSome_iff_exists.mp hi
    have hrest := ih (i + 1) (fun j h1 h2 => h j (by omega) (by omega))
    simp [launchFrom, hpid, hrest]

theorem launchFrom_running (fork : Nat → Option Int) (time_now : Nat → Nat) :
    ∀ n i, ∀ r ∈ launchFrom fork time_now n i,
      r.state = ProcState.RUNNING ∧ r.info.finish = none := by
  intro n
  induction n with
  | zero => intro i r hr; simp [launchFrom] at hr
  | succ n ih =>
    intro i r hr
    unfold launchFrom at hr
    cases hf : fork i with
    | none => simp [hf] at hr
    | some pid =>
      simp only [hf, List.mem_cons] at hr
      rcases hr with h | h
      · rw [h]; exact ⟨rfl, rfl⟩
      · exact ih (i + 1) r h

theorem classify_terminal (stop_signal : Nat) (w : WaitStatus) :
    (classify stop_signal w).isTerminal = true := by
  cases w with
  | exited code => cases code <;> rfl
  | signaled s =>
    show (if s = stop_signal then ProcState.KILLED else ProcState.EXITED_FAIL).isTerminal = true
    by_cases h : s = stop_signal
    · rw [if_pos h]; rfl
    · rw [if_neg h]; rfl

theorem abort_reached_iff (failures : Nat) :
    abort_reached failures = true ↔ 5 ≤ failures := by
  simp [abort_reached, ABORT_FAILURES]

theorem run_pending_all_fail (outcome : Nat → Nat → ProcState)
    (hfail : ∀ id i, outcome id i = ProcState.EXITED_FAIL) :
    ∀ (l : List StressorRequest) (failures : Nat), failures ≤ 5 →
      (∀ s ∈ l, s.instances = 1) →
      (run_pending outcome failures l).1.length = min l.length (5 - failures) ∧
      (run_pending outcome failures l).2 = failures + min l.length (5 - failures) := by
  intro l
  induction l with
  | nil => intro failures _ _; simp [run_pending]
  | cons s rest ih =>
    intro failures hle hinst
    have hs : s.instances = 1 := hinst s (List.mem_cons_self _ _)
    have hrest : ∀ x ∈ rest, x.instances = 1 :=
      fun x hx => hinst x (List.mem_cons_of_mem _ hx)
    unfold run_pending
    by_cases hab : abort_reached failures = true
    · rw [if_pos hab]
      have h5 : 5 ≤ failures := (abort_reached_iff failures).mp hab
      have h0 : 5 - failures = 0 := by omega
      simp [h0]
    · rw [if_neg hab]
      have hlt : failures < 5 := by
        by_contra hge
        exact hab ((abort_reached_iff failures).mpr (by omega))
      have hfold : ((List.range s.instances).map (outcome s.id)).foldl count_outcome
          failures = failures + 1 := by
        rw [hs]
        simp [List.range_succ, hfail, count_outcome]
      rw [hfold]
      obtain ⟨h1, h2⟩ := ih (failures + 1) (by omega) hrest
      simp only [List.length_cons]
      rw [h1, h2]
      constructor <;> omega

theorem run_pending_no_abort (outcome : Nat → Nat → ProcState) (failures : Nat)
    (s : StressorRequest) (rest : List StressorRequest) (h : failures < 5) :
    (run_pending outcome failures (s :: rest)).1.head? = some s.id := by
  unfold run_pending
  have hab : ¬ abort_reached failures = true := by
    intro hab
    have := (abort_reached_iff failures).mp hab
    omega
  rw [if_neg hab]
  rfl

/-! ## Concrete evaluations -/

theorem stress_max_linuxConfig : STRESS_MAX linuxConfig = some 53 := by decide

theorem stress_max_bareConfig : STRESS_MAX bareConfig = some 39 := by decide

theorem stress_id_bareConfig_head :
    (stress_id bareConfig).head? = some ("STRESS_BSEARCH", 0) := by decide

theorem long_options_bareConfig_length : (long_options bareConfig).length = 103 := by
  decide

theorem supervise_seven_failing :
    supervise
      (RunRequest.mk ((List.range 7).map (fun i => StressorRequest.mk i 1 0 CLASS_CPU))
        60 0 OPT_FLAGS_METRICS 0)
      (fun _ _ => ProcState.EXITED_FAIL) = ([0, 1, 2, 3, 4], 5) := by
  decide

theorem supervise_streak_broken :
    supervise
      (RunRequest.mk ((List.range 7).map (fun i => StressorRequest.mk i 1 0 CLASS_CPU))
        60 0 OPT_FLAGS_METRICS 0)
      (fun id _ => if id = 3 then ProcState.EXITED_OK else ProcState.EXITED_FAIL) =
      ([0, 1, 2, 3, 4, 5, 6], 3) := by
  decide

/-! ## Theorems -/

/-- C1: the threshold the supervisor compares its consecutive-failure counter
against is the fixed constant `ABORT_FAILURES = 5`: the abort check fires
exactly when the counter is at least 5; below 5 the next pending stressor is
launched; and for every run request, whatever its timeout, back-off, option
flags, sequential setting, ceilings and class flags, a run of single-instance
stressors that all fail launches exactly the first 5 of them (all of them when
there are fewer) and stops with the counter at that number. -/
theorem C1_abort_threshold_is_five (req : RunRequest)
    (outcome : Nat → Nat → ProcState) (failures : Nat)
    (hfail : ∀ id i, outcome id i = ProcState.EXITED_FAIL)
    (hinst : ∀ s ∈ req.stressors, s.instances = 1) :
    ABORT_FAILURES = 5 ∧
    (abort_reached failures = true ↔ ABORT_FAILURES ≤ failures) ∧
    (abort_reached failures = true ↔ 5 ≤ failures) ∧
    (failures < 5 → ∀ s rest,
      (run_pending outcome failures (s :: rest)).1.head? = some s.id) ∧
    (5 ≤ failures → ∀ l, run_pending outcome failures l = ([], failures)) ∧
    (supervise req outcome).1.length = min req.stressors.length 5 ∧
    (supervise req outcome).2 = min req.stressors.length 5 := by
  obtain ⟨h1, h2⟩ := run_pending_all_fail outcome hfail req.stressors 0 (by omega) hinst
  refine ⟨rfl, abort_reached_iff failures, abort_reached_iff failures, ?_, ?_, ?_, ?_⟩
  · exact fun h s rest => run_pending_no_abort outcome failures s rest h
  · intro h l
    cases l with
    | nil => rfl
    | cons s rest =>
      unfold run_pending
      rw [if_pos ((abort_reached_iff failures).mpr h)]
  · simpa [supervise] using h1
  · simpa [supervise] using h2

/-- Witness of C1: seven single-instance stressors that all fail, with the
counter at 5 for the abort check. -/
theorem C1_abort_threshold_is_five_witness :
    ABORT_FAILURES = 5 ∧
    (abort_reached 5 = true ↔ ABORT_FAILURES ≤ 5) ∧
    (abort_reached 5 = true ↔ 5 ≤ 5) ∧
    (5 < 5 → ∀ s rest,
      (run_pending (fun _ _ => ProcState.EXITED_FAIL) 5 (s :: rest)).1.head? = some s.id) ∧
    (5 ≤ 5 → ∀ l, run_pending (fun _ _ => ProcState.EXITED_FAIL) 5 l = ([], 5)) ∧
    (supervise
      (RunRequest.mk ((List.range 7).map (fun i => StressorRequest.mk i 1 0 CLASS_CPU))
        60 0 OPT_FLAGS_METRICS 0)
      (fun _ _ => ProcState.EXITED_FAIL)).1.length =
      min (RunRequest.mk ((List.range 7).map (fun i => StressorRequest.mk i 1 0 CLASS_CPU))
        60 0 OPT_FLAGS_METRICS 0).stressors.length 5 ∧
    (supervise
      (RunRequest.mk ((List.range 7).map (fun i => StressorRequest.mk i 1 0 CLASS_CPU))
        60 0 OPT_FLAGS_METRICS 0)
      (fun _ _ => ProcState.EXITED_FAIL)).2 =
      min (RunRequest.mk ((List.range 7).map (fun i => StressorRequest.mk i 1 0 CLASS_CPU))
        60 0 OPT_FLAGS_METRICS 0).stressors.length 5 :=
  C1_abort_threshold_is_five
    (RunRequest.mk ((List.range 7).map (fun i => StressorRequest.mk i 1 0 CLASS_CPU))
      60 0 OPT_FLAGS_METRICS 0)
    (fun _ _ => ProcState.EXITED_FAIL) 5 (fun _ _ => rfl) (by decide)

/-- C9: each of the families `OPT_FLAGS_*`, `CLASS_*` and `PR_*` consists of
pairwise distinct single-bit values below `2 ^ 31`; no `PR_*` bit is an
`OPT_FLAGS_*` bit (nor overlaps the union of them), and `PR_ALL` is the OR of
the four print levels, `0x000F0000`. -/
theorem C9_mask_families :
    (maskValues optFlagsMasks).Nodup ∧ (maskValues classMasks).Nodup ∧
    (maskValues prMasks).Nodup ∧
    (∀ v ∈ maskValues optFlagsMasks, isSingleBit31 v = true ∧ v < 2 ^ 31) ∧
    (∀ v ∈ maskValues classMasks, isSingleBit31 v = true ∧ v < 2 ^ 31) ∧
    (∀ v ∈ maskValues prMasks, isSingleBit31 v = true ∧ v < 2 ^ 31) ∧
    (∀ p ∈ maskValues prMasks, ∀ o ∈ maskValues optFlagsMasks, p ≠ o) ∧
    (∀ p ∈ maskValues prMasks, p &&& orAll (maskValues optFlagsMasks) = 0) ∧
    PR_ALL = orAll (maskValues prMasks) ∧
    PR_ALL = PR_ERROR ||| PR_INFO ||| PR_DEBUG ||| PR_FAIL ∧
    PR_ALL = 0x000F0000 := by
  refine ⟨by decide, by decide, by decide, by decide, by decide, by decide,
    by decide, by decide, by decide, rfl, by decide⟩

/-- C2: the wait-word array `futex` and the deadline array `futex_timeout` are
parallel: both have `STRESS_PROCS_MAX = 1024` entries, a wait word is 32 bits
and a deadline 64 bits wide, and an index is valid for one exactly when it is
valid for the other, namely when `0 ≤ i < 1024`. -/
theorem C2_futex_arrays_parallel (gnuc : Bool) (i : Int) :
    STRESS_PROCS_MAX = 1024 ∧
    (shared_t.futex gnuc).count = STRESS_PROCS_MAX ∧
    (shared_t.futex_timeout gnuc).count = STRESS_PROCS_MAX ∧
    (shared_t.futex gnuc).bits = 32 ∧
    (shared_t.futex_timeout gnuc).bits = 64 ∧
    ((shared_t.futex gnuc).validIndex i = (shared_t.futex_timeout gnuc).validIndex i) ∧
    ((shared_t.futex gnuc).validIndex i = true ↔ 0 ≤ i ∧ i < 1024) := by
  refine ⟨rfl, rfl, rfl, rfl, rfl, rfl, ?_⟩
  simp [Member.validIndex, shared_t.futex, STRESS_PROCS_MAX]

/-- C3: layout of the fixed part of `shared_t`, with or without `__GNUC__`:
`mem_cache` is `MEM_CACHE_SIZE = 65536 * 32 = 2097152` bytes at offset 0,
`futex` starts at 2097152, `futex_timeout` at 2101248, the counter tail at
2109440, which is also `sizeof(shared_t)`; every offset is a multiple of 64 and
counter `k` lies at offset `2109440 + 8 * k`. -/
theorem C3_shared_layout (gnuc : Bool) (k : Nat) :
    MEM_CACHE_SIZE = 65536 * 32 ∧ MEM_CACHE_SIZE = 2097152 ∧
    (shared_t.mem_cache gnuc).size = 2097152 ∧
    offsetof (shared_t gnuc) "mem_cache" = some 0 ∧
    offsetof (shared_t gnuc) "futex" = some 2097152 ∧
    offsetof (shared_t gnuc) "futex_timeout" = some 2101248 ∧
    offsetof (shared_t gnuc) "counters" = some 2109440 ∧
    sizeofStruct (shared_t gnuc) = 2109440 ∧
    (shared_t.counters gnuc).size = 0 ∧
    (∀ p ∈ layout 0 (shared_t gnuc), p.2 % 64 = 0) ∧
    sizeofStruct (shared_t gnuc) % 64 = 0 ∧
    counterOffset gnuc k = some (2109440 + 8 * k) := by
  cases gnuc
  · refine ⟨rfl, rfl, rfl, by decide, by decide, by decide, by decide, by decide, rfl,
      by decide, by decide, ?_⟩
    have h : offsetof (shared_t false) "counters" = some 2109440 := by decide
    simp [counterOffset, h, shared_t.counters]
  · refine ⟨rfl, rfl, rfl, by decide, by decide, by decide, by decide, by decide, rfl,
      by decide, by decide, ?_⟩
    have h : offsetof (shared_t true) "counters" = some 2109440 := by decide
    simp [counterOffset, h, shared_t.counters]

/-- C4 (as stated, refuted): the header defines a ninth class mask,
`CLASS_CPU_CACHE = 0x4`, that is not one of the eight classes CPU, memory, I/O,
network, scheduler, VM, interrupt and OS; so the `CLASS_*` masks are not
exactly those eight. -/
theorem C4_counterexample_cpu_cache :
    ("CLASS_CPU_CACHE", CLASS_CPU_CACHE) ∈ classMasks ∧
    ("CLASS_CPU_CACHE", CLASS_CPU_CACHE) ∉ specClassMasks ∧
    CLASS_CPU_CACHE ∉ maskValues specClassMasks ∧
    classMasks.length ≠ 8 ∧
    ¬ (∀ v, v ∈ maskValues classMasks ↔ v ∈ maskValues specClassMasks) := by
  refine ⟨by decide, by decide, by decide, by decide, ?_⟩
  intro h
  exact absurd ((h CLASS_CPU_CACHE).1 (by decide)) (by decide)

/-- C4 (amended): the `CLASS_*` masks defined by the header are exactly the
nine classes CPU, memory, CPU cache, I/O, network, scheduler, VM, interrupt and
OS: the eight classes of the specification together with `CLASS_CPU_CACHE`. -/
theorem C4_class_masks_are_nine (v : Nat) :
    classMasks.length = 9 ∧ (maskValues classMasks).Nodup ∧
    (v ∈ maskValues classMasks ↔
      v ∈ maskValues specClassMasks ∨ v = CLASS_CPU_CACHE) ∧
    (v ∈ maskValues classMasks ↔
      v = CLASS_CPU ∨ v = CLASS_MEMORY ∨ v = CLASS_CPU_CACHE ∨ v = CLASS_IO ∨
      v = CLASS_NETWORK ∨ v = CLASS_SCHEDULER ∨ v = CLASS_VM ∨
      v = CLASS_INTERRUPT ∨ v = CLASS_OS) := by
  refine ⟨rfl, by decide, ?_, ?_⟩
  · simp only [maskValues, classMasks, specClassMasks, List.map, List.mem_cons,
      List.mem_singleton, List.not_mem_nil, or_false]
    tauto
  · simp only [maskValues, classMasks, List.map, List.mem_cons,
      List.mem_singleton, List.not_mem_nil, or_false]

/-- C7: for every platform configuration, `STRESS_MAX` is the last enumerator of
`stress_id`, the stressor ids before it are pairwise distinct and number
consecutively from 0, and `STRESS_MAX` equals their number; so every stressor
id is a valid index into `opt_ops`, `started_procs` and `procs`, whose extent
is `STRESS_MAX`.  The same numbering holds for every subset of the enumerators
that contains `STRESS_MAX`, whichever stressors are compiled in. -/
theorem C7_stress_id_valid_indices (cfg : Config) :
    (stress_id cfg).map Prod.fst =
      (preprocess cfg stress_id_enumerators).map (fun e => e.name) ∧
    stress_id cfg = stressors cfg ++ [("STRESS_MAX", (stressors cfg).length)] ∧
    (∀ p ∈ stressors cfg, p.1 ≠ "STRESS_MAX") ∧
    STRESS_MAX cfg = some (stressors cfg).length ∧
    (stressors cfg).map Prod.snd = List.range (stressors cfg).length ∧
    ((stressors cfg).map Prod.snd).Nodup ∧
    opt_ops_extent cfg = some (stressors cfg).length ∧
    started_procs_extent cfg = some (stressors cfg).length ∧
    procs_extent cfg = some (stressors cfg).length ∧
    (∀ p ∈ stressors cfg, p.2 < (stressors cfg).length) ∧
    (∀ present : String → Bool, present "STRESS_MAX" = true →
      ∃ ids : List (String × Nat),
        enumValues 0 (stress_id_enumerators.filter (fun e => present e.name)) =
          ids ++ [("STRESS_MAX", ids.length)] ∧
        ids.map Prod.snd = List.range ids.length ∧
        (∀ p ∈ ids, p.1 ≠ "STRESS_MAX" ∧ p.2 < ids.length)) := by
  obtain ⟨ids, hid, hrange, hname⟩ := stress_id_shape cfg
  have hst : stressors cfg = ids := by
    unfold stressors
    rw [hid, List.dropLast_concat]
  have hmax : STRESS_MAX cfg = some ids.length := by
    unfold STRESS_MAX
    rw [hid]
    exact lookup_append_singleton _ _ _ hname
  rw [hst]
  refine ⟨enumValues_fst _ _, hid, hname, hmax, hrange, ?_, hmax, hmax, hmax, ?_, ?_⟩
  · rw [hrange]; exact List.nodup_range _
  · intro p hp
    have : p.2 ∈ ids.map Prod.snd := List.mem_map_of_mem _ hp
    rw [hrange] at this
    exact List.mem_range.mp this
  · intro present hpres
    obtain ⟨ids2, h1, h2, h3⟩ :=
      stress_id_filter_shape (fun e => present e.name) hpres
    refine ⟨ids2, h1, h2, fun p hp => ⟨h3 p hp, ?_⟩⟩
    have : p.2 ∈ ids2.map Prod.snd := List.mem_map_of_mem _ hp
    rw [h2] at this
    exact List.mem_range.mp this

/-- C8: for every platform configuration the option codes of `stress_op` are
pairwise distinct: the short options are distinct character codes below 0x80,
the long-only options number consecutively from `OPT_AFFINITY = 0x80`, hence
are at least 0x80, and no long-only code equals a short code. -/
theorem C8_stress_op_codes_distinct (cfg : Config) :
    stress_op cfg = short_options cfg ++ long_options cfg ∧
    (short_options cfg).map Prod.fst =
      (preprocess cfg stress_op_short).map (fun e => e.name) ∧
    (long_options cfg).map Prod.fst =
      (preprocess cfg stress_op_long).map (fun e => e.name) ∧
    ((stress_op cfg).map Prod.snd).Nodup ∧
    ((short_options cfg).map Prod.snd).Nodup ∧
    (∀ p ∈ short_options cfg, p.2 < 0x80) ∧
    (long_options cfg).head? = some ("OPT_AFFINITY", 0x80) ∧
    (long_options cfg).map Prod.snd = List.range' 0x80 (long_options cfg).length ∧
    (∀ p ∈ long_options cfg, 0x80 ≤ p.2) ∧
    (∀ s ∈ short_options cfg, ∀ l ∈ long_options cfg, s.2 ≠ l.2) := by
  obtain ⟨hs, hl, hall⟩ := stress_op_shape cfg
  have hexp : ∀ e ∈ preprocess cfg stress_op_short, e.init.isSome = true :=
    fun e he => (stress_op_short_explicit e (mem_preprocess he)).1
  have himp : ∀ e ∈ preprocess cfg stress_op_long_rest, e.init = none :=
    fun e he => stress_op_long_rest_implicit e (mem_preprocess he)
  have hsv : (short_options cfg).map Prod.snd =
      (preprocess cfg stress_op_short).map (fun e => e.init.getD 0) := by
    rw [hs]; exact enumValues_explicit_snd _ _ hexp
  have hsub : List.Sublist ((short_options cfg).map Prod.snd)
      (stress_op_short.map (fun e => e.init.getD 0)) := by
    rw [hsv]; exact List.Sublist.map _ (List.filter_sublist _)
  have hsnd : ((short_options cfg).map Prod.snd).Nodup :=
    List.Nodup.sublist hsub stress_op_short_nodup
  have hslt : ∀ p ∈ short_options cfg, p.2 < 0x80 := by
    intro p hp
    have hm : p.2 ∈ (short_options cfg).map Prod.snd := List.mem_map_of_mem _ hp
    rw [hsv] at hm
    obtain ⟨e, he, hep⟩ := List.mem_map.mp hm
    rw [← hep]
    exact (stress_op_short_explicit e (mem_preprocess he)).2
  have hlv : (long_options cfg).map Prod.snd =
      List.range' 0x80 (long_options cfg).length := by
    rw [hl]
    simp only [List.map_cons, List.length_cons]
    rw [enumValues_implicit_snd _ _ himp, enumValues_length, List.range'_succ]
  have hlge : ∀ p ∈ long_options cfg, 0x80 ≤ p.2 := by
    intro p hp
    have hm : p.2 ∈ (long_options cfg).map Prod.snd := List.mem_map_of_mem _ hp
    rw [hlv] at hm
    exact (List.mem_range'_1.mp hm).1
  have hlnd : ((long_options cfg).map Prod.snd).Nodup := by
    rw [hlv]; exact List.nodup_range' _ _
  have hdisj : ∀ s ∈ short_options cfg, ∀ l ∈ long_options cfg, s.2 ≠ l.2 := by
    intro s hs1 l hl1 h
    have h1 := hslt s hs1
    have h2 := hlge l hl1
    omega
  refine ⟨hall, ?_, ?_, ?_, hsnd, hslt, ?_, hlv, hlge, hdisj⟩
  · rw [hs]; exact enumValues_fst _ _
  · rw [hl, stress_op_long_split]
    have : preprocess cfg (Enumerator.mk "OPT_AFFINITY" Cond.always (some 0x80) ::
        stress_op_long_rest) = Enumerator.mk "OPT_AFFINITY" Cond.always (some 0x80) ::
        preprocess cfg stress_op_long_rest := by
      simp [preprocess, List.filter_cons, Cond.always]
    rw [this]
    simp only [List.map_cons]
    rw [enumValues_fst]
  · rw [hall, List.map_append]
    refine List.Nodup.append hsnd hlnd ?_
    intro v hv1 hv2
    obtain ⟨s, hs1, hsv1⟩ := List.mem_map.mp hv1
    obtain ⟨l, hl1, hlv1⟩ := List.mem_map.mp hv2
    exact hdisj s hs1 l hl1 (hsv1.trans hlv1.symm)
  · rw [hl]; rfl

/-- C5: a worker invoked through `func(counter, instance, max_ops, name)` with
ceiling `max_ops = K > 0` on a fresh counter returns within `K` units of work
whatever the run/stop flag does, its counter at return is at most `K`, and when
the flag is never cleared and no unit fails it returns with the counter
exactly `K`. -/
theorem C5_worker_counter_le_ceiling (work : Nat → String → Nat → WorkerStatus)
    (opt_do_run : Nat → Bool) (inst K fuel : Nat) (name : String)
    (hpos : 0 < K) (hK : K < 2 ^ 64) (hfuel : K ≤ fuel) :
    ∃ st c, stressor work opt_do_run inst K name fuel 0 0 = some (st, c) ∧
      c ≤ K ∧
      ((∀ u, opt_do_run u = true) → (∀ u, work inst name u = WorkerStatus.success) →
        st = WorkerStatus.success ∧ c = K) :=
  stressor_returns work opt_do_run inst K name hK fuel 0 0 hpos (by omega)

/-- Witness of C5: a worker with ceiling 3 whose flag is never cleared. -/
theorem C5_worker_counter_le_ceiling_witness :
    ∃ st c, stressor (fun _ _ _ => WorkerStatus.success) (fun _ => true) 0 3 "cpu" 5 0 0
        = some (st, c) ∧ c ≤ 3 ∧
      ((∀ u : Nat, (fun _ => true) u = true) →
        (∀ u : Nat, (fun _ _ _ => WorkerStatus.success) 0 "cpu" u = WorkerStatus.success) →
        st = WorkerStatus.success ∧ c = 3) :=
  C5_worker_counter_le_ceiling (fun _ _ _ => WorkerStatus.success) (fun _ => true)
    0 3 5 "cpu" (by decide) (by decide) (by decide)

/-- C6: for `count ≥ 1`, when every fork succeeds, launching creates exactly
`count` process records, all running with no finish time, and after
`reap_all()` there are still `count` records, each in a terminal state with its
finish time set. -/
theorem C6_launch_reap_all (fork : Nat → Option Int) (time_now : Nat → Nat)
    (waitpid : Int → WaitStatus) (reaped_at : Int → Nat) (stop_signal count : Nat)
    (hcount : 1 ≤ count) (hfork : ∀ i, i < count → (fork i).isSome = true) :
    (launch fork time_now count).length = count ∧
    launch fork time_now count ≠ [] ∧
    (∀ r ∈ launch fork time_now count,
      r.state = ProcState.RUNNING ∧ r.info.finish = none) ∧
    (reap_all waitpid reaped_at stop_signal (launch fork time_now count)).length = count ∧
    (∀ r ∈ reap_all waitpid reaped_at stop_signal (launch fork time_now count),
      r.state.isTerminal = true ∧ r.info.finish.isSome = true) := by
  have hlen : (launch fork time_now count).length = count :=
    launchFrom_length fork time_now count 0 (fun j _ h => hfork j (by omega))
  refine ⟨hlen, ?_, launchFrom_running fork time_now count 0, ?_, ?_⟩
  · intro hnil
    rw [hnil] at hlen
    simp at hlen
    omega
  · simp [reap_all, hlen]
  · intro r hr
    obtain ⟨r0, _, hr0⟩ := List.mem_map.mp hr
    rw [← hr0]
    exact ⟨classify_terminal _ _, rfl⟩

/-- Witness of C6: three instances, forks returning pids 100, 101, 102. -/
theorem C6_launch_reap_all_witness :
    (launch (fun i => some (100 + (i : Int))) (fun i => i) 3).length = 3 ∧
    launch (fun i => some (100 + (i : Int))) (fun i => i) 3 ≠ [] ∧
    (∀ r ∈ launch (fun i => some (100 + (i : Int))) (fun i => i) 3,
      r.state = ProcState.RUNNING ∧ r.info.finish = none) ∧
    (reap_all (fun _ => WaitStatus.exited 0) (fun _ => 9) 14
      (launch (fun i => some (100 + (i : Int))) (fun i => i) 3)).length = 3 ∧
    (∀ r ∈ reap_all (fun _ => WaitStatus.exited 0) (fun _ => 9) 14
        (launch (fun i => some (100 + (i : Int))) (fun i => i) 3),
      r.state.isTerminal = true ∧ r.info.finish.isSome = true) :=
  C6_launch_reap_all (fun i => some (100 + (i : Int))) (fun i => i)
    (fun _ => WaitStatus.exited 0) (fun _ => 9) 14 3 (by decide) (fun _ _ => rfl)

end StressNg
